import Mathlib

/-!
# AgentToast coordination and extraction subsystem: a shallow embedding

This file embeds, in Lean, the coordinator pipeline of the AgentToast
repository (`src/agents/coordinator_agent.py`) together with the output
normalization cascades of the fact-check and trend stages
(`src/agents/fact_checker_agent.py` `_process_output`,
`src/agents/trend_agent.py` `_process_output`), and proves properties of the
embedded definitions.

Modelling conventions:

* Python strings are Lean `String`s; positions are `Nat` indices into the
  character list.  Python slices `s[a:b]` are `pySlice`.
* The Python `re` patterns used by the sources are transliterated into a small
  regular-expression AST (`Rx`) executed by a backtracking matcher (`mrun`)
  whose alternation, greedy and lazy repetition orders follow Python `re`
  backtracking priority.  `rsearch`, `rfinditer`, `rfindall` and `rsplitRx`
  mirror `re.search`, `re.finditer`, `re.findall` and `re.split` for the
  pattern shapes that occur in the sources (no capturing groups inside split
  patterns, group numbering as written).  Character classes are modelled over
  ASCII; the sources only ever match ASCII pattern text.
* `json.loads` is modelled by `pyJsonLoads`, a recursive-descent parser for
  RFC 8259 JSON.  Numeric tokens are kept as their raw text (`Json.num`): the
  embedded code never computes with numbers, it only type-checks fields, and a
  numeric field where a string is required makes the pydantic construction
  fail, which the sources catch with a bare `except` and treat as a parse
  failure.  The same `Option` result models any exception escaping the
  `try` block of a strict-parse tier.
* Stateful agent invocations (`await agent.run(...)`, `run_sync`,
  `Runner.run`, `text_to_speech`) are the external, nondeterministic calls of
  the pipeline; they are modelled by a `Behaviour` record giving each call''s
  outcome, `.error msg` standing for any exception the call raises.  Note the
  committed sources pass a `parent_trace` keyword argument to
  `NewsAgent.run` and `TrendAgent.run`, whose overridden signatures do not
  accept it, so at runtime those two calls raise `TypeError`; the `.error`
  case of the corresponding `Behaviour` field covers that exception, while
  the model keeps the general stage-call boundary of the specification.
* Tracing spans are pure bookkeeping (`set_data` or `set_error` then close)
  and are omitted: they do not influence any returned value.
* pydantic model construction is modelled as total record construction:
  optional fields absent from a constructor call default to `none`, and an
  unknown keyword argument (such as the `error=` argument passed to
  `CoordinatorOutput`, which declares no such field) is discarded, which is
  the default `extra` behaviour of pydantic models.  The repository pins no
  pydantic version inside `src` (its `requirements.txt` is not part of the
  sources), so the defaulting semantics is modelled from the specification''s
  contract that the coordinator always returns a `PipelineOutput`.
-/

/-! ## Python character and string helpers -/

/-- Left brace character, written via its code point. -/
def chLB : Char := Char.ofNat 123

/-- Right brace character, written via its code point. -/
def chRB : Char := Char.ofNat 125

/-- Python regex `\s` (ASCII part): space, tab, newline, carriage return,
form feed, vertical tab.  `str.strip()` uses the same set. -/
def isPyWs (c : Char) : Bool :=
  c == ' ' || c == '\t' || c == '\n' || c == '\r' ||
  c == Char.ofNat 12 || c == Char.ofNat 11

/-- Python regex `\d` (ASCII part). -/
def isPyDigit (c : Char) : Bool := '0' ≤ c && c ≤ '9'

/-- Python regex `\w` (ASCII part): letters, digits, underscore. -/
def isPyWord (c : Char) : Bool :=
  ('a' ≤ c && c ≤ 'z') || ('A' ≤ c && c ≤ 'Z') || isPyDigit c || c == '_'

/-- Drop leading characters satisfying `p`. -/
def dropWhileList (p : Char → Bool) : List Char → List Char
  | [] => []
  | c :: cs => if p c then dropWhileList p cs else c :: cs

/-- Python `str.strip()`: remove leading and trailing whitespace. -/
def pyStrip (s : String) : String :=
  ⟨(dropWhileList isPyWs (dropWhileList isPyWs s.data.reverse).reverse)⟩

/-- Python slice `s[a:b]` (with clamping, as in Python). -/
def pySlice (s : String) (a b : Nat) : String :=
  ⟨(s.data.drop a).take (b - a)⟩

/-- Python `str.find(sub, start)`: index of the first occurrence of `sub` at or
after `start`, or `-1`; returned here as `Option Nat`. -/
def pyFindAux (sub : List Char) : List Char → Nat → Option Nat
  | [], i => if sub = [] then some i else none
  | c :: cs, i =>
    if sub.isPrefixOf (c :: cs) then some i else pyFindAux sub cs (i + 1)

/-- Python `str.find(sub, start)` as an `Option`. -/
def pyFind (s : String) (sub : String) (start : Nat) : Option Nat :=
  (pyFindAux sub.data (s.data.drop start) start).map id

/-! ## A small regex AST and backtracking matcher

The AST covers exactly the constructs appearing in the transliterated
patterns.  `mrun` is a continuation-passing backtracking matcher; the order
in which alternatives are tried encodes Python `re` match priority:
`alt` tries its left branch first, `starG`/`plusG`/`optG` are greedy
(longest first), `starL` is lazy (shortest first). -/

/-- Regex AST. -/
inductive Rx where
  /-- Empty pattern. -/
  | eps : Rx
  /-- Literal character. -/
  | lit (c : Char) : Rx
  /-- Character class by predicate (`\s`, `\d`, `\w`, `.`, `[...]`). -/
  | cls (p : Char → Bool) : Rx
  /-- Sequencing. -/
  | seq (a b : Rx) : Rx
  /-- Alternation, left branch preferred. -/
  | alt (a b : Rx) : Rx
  /-- Greedy star `a*`. -/
  | starG (a : Rx) : Rx
  /-- Lazy star `a*?`. -/
  | starL (a : Rx) : Rx
  /-- Greedy option `a?`. -/
  | optG (a : Rx) : Rx
  /-- Capturing group `n`. -/
  | grp (n : Nat) (a : Rx) : Rx
  /-- Python `$` (no MULTILINE): end of input, or just before a final newline. -/
  | eos : Rx

/-- Captured groups: group number to captured text, most recent first. -/
abbrev Caps := List (Nat × String)

/-- Continuation-passing backtracking matcher.  `rem` is the remaining input,
`pos` the absolute position, `k` the continuation receiving the state after
this pattern.  `fuel` bounds recursion depth; every use below supplies fuel
exceeding any possible backtracking depth for its input. -/
def mrun : Nat → Rx → List Char → Nat → Caps →
    (List Char → Nat → Caps → Option (Nat × Caps)) → Option (Nat × Caps)
  | 0, _, _, _, _, _ => none
  | fuel + 1, rx, rem, pos, caps, k =>
    match rx with
    | .eps => k rem pos caps
    | .lit c =>
      match rem with
      | [] => none
      | x :: xs => if x = c then k xs (pos + 1) caps else none
    | .cls p =>
      match rem with
      | [] => none
      | x :: xs => if p x then k xs (pos + 1) caps else none
    | .seq a b =>
      mrun fuel a rem pos caps (fun rem2 pos2 caps2 => mrun fuel b rem2 pos2 caps2 k)
    | .alt a b =>
      match mrun fuel a rem pos caps k with
      | some r => some r
      | none => mrun fuel b rem pos caps k
    | .starG a =>
      match mrun fuel a rem pos caps
          (fun rem2 pos2 caps2 =>
            if pos < pos2 then mrun fuel (.starG a) rem2 pos2 caps2 k else none) with
      | some r => some r
      | none => k rem pos caps
    | .starL a =>
      match k rem pos caps with
      | some r => some r
      | none =>
        mrun fuel a rem pos caps
          (fun rem2 pos2 caps2 =>
            if pos < pos2 then mrun fuel (.starL a) rem2 pos2 caps2 k else none)
    | .optG a =>
      match mrun fuel a rem pos caps k with
      | some r => some r
      | none => k rem pos caps
    | .grp n a =>
      mrun fuel a rem pos caps
        (fun rem2 pos2 caps2 => k rem2 pos2 ((n, ⟨rem.take (pos2 - pos)⟩) :: caps2))
    | .eos =>
      match rem with
      | [] => k rem pos caps
      | ['\n'] => k rem pos caps
      | _ => none

/-- Outcome of a successful regex match: absolute start and end positions and
the captured groups. -/
structure MatchRes where
  /-- Start position of the whole match. -/
  mstart : Nat
  /-- End position of the whole match (`match.end()`). -/
  mend : Nat
  /-- Captured groups. -/
  caps : Caps
deriving Repr, DecidableEq

/-- Python `match.group(n)`: most recently recorded capture for group `n`
(empty string when the group is absent; the transliterated patterns only read
groups that participate in every match). -/
def MatchRes.grpD (m : MatchRes) (n : Nat) : String :=
  match m.caps.find? (fun pr => pr.1 = n) with
  | some pr => pr.2
  | none => ""

/-- Size-based fuel for `mrun`: generous bound on backtracking depth. -/
def rxWeight : Rx → Nat
  | .eps => 1
  | .lit _ => 1
  | .cls _ => 1
  | .seq a b => rxWeight a + rxWeight b + 1
  | .alt a b => rxWeight a + rxWeight b + 1
  | .starG a => rxWeight a + 2
  | .starL a => rxWeight a + 2
  | .optG a => rxWeight a + 1
  | .grp _ a => rxWeight a + 1
  | .eos => 1

/-- Fuel sufficient for any match attempt of `rx` on an input of length `n`. -/
def rxFuel (rx : Rx) (n : Nat) : Nat := (n + 2) * (rxWeight rx + 2) + 2

/-- Attempt a match of `rx` anchored at position `pos` of the character list
`rem` (a suffix of the subject). -/
def rmatchAt (rx : Rx) (rem : List Char) (pos : Nat) : Option MatchRes :=
  match mrun (rxFuel rx (rem.length + pos)) rx rem pos []
      (fun _ pos2 caps2 => some (pos2, caps2)) with
  | some (e, caps) => some ⟨pos, e, caps⟩
  | none => none

/-- Python `re.search`: leftmost match, scanning start positions left to
right. -/
def rsearchAux (rx : Rx) : List Char → Nat → Option MatchRes
  | [], pos => rmatchAt rx [] pos
  | c :: cs, pos =>
    match rmatchAt rx (c :: cs) pos with
    | some m => some m
    | none => rsearchAux rx cs (pos + 1)

/-- Python `re.search(pattern, s)`. -/
def rsearch (rx : Rx) (s : String) : Option MatchRes := rsearchAux rx s.data 0

/-- Python `re.finditer`: non-overlapping matches scanned left to right; after
a match the scan resumes at its end (all patterns transliterated here consume
at least one character on every match). -/
def rfinditerAux (rx : Rx) : Nat → List Char → Nat → List MatchRes
  | 0, _, _ => []
  | _ + 1, [], pos =>
    match rmatchAt rx [] pos with
    | some m => [m]
    | none => []
  | gas + 1, c :: cs, pos =>
    match rmatchAt rx (c :: cs) pos with
    | some m =>
      if pos < m.mend then
        m :: rfinditerAux rx gas ((c :: cs).drop (m.mend - pos)) m.mend
      else
        m :: rfinditerAux rx gas cs (pos + 1)
    | none => rfinditerAux rx gas cs (pos + 1)

/-- Python `re.finditer(pattern, s)` as a list of matches. -/
def rfinditer (rx : Rx) (s : String) : List MatchRes :=
  rfinditerAux rx (s.data.length + 1) s.data 0

/-- Python `re.findall` for a pattern with no capturing groups: the list of
matched substrings. -/
def rfindall (rx : Rx) (s : String) : List String :=
  (rfinditer rx s).map (fun m => pySlice s m.mstart m.mend)

/-- Pieces of `s` delimited by the given match list (helper for `rsplitRx`). -/
def rsplitPieces (s : String) : Nat → List MatchRes → List String
  | start, [] => [pySlice s start s.data.length]
  | start, m :: rest => pySlice s start m.mstart :: rsplitPieces s m.mend rest

/-- Python `re.split` for a pattern with no capturing groups: the pieces of
`s` between non-overlapping matches. -/
def rsplitRx (rx : Rx) (s : String) : List String :=
  rsplitPieces s 0 (rfinditer rx s)

/-! ### Pattern combinators used by the transliterations -/

/-- Literal word: sequence of literal characters. -/
def rxLit (s : String) : Rx :=
  (s.data.map Rx.lit).foldr .seq .eps

/-- Case-insensitive literal word (ASCII), for patterns compiled with
`re.IGNORECASE`. -/
def rxLitCI (s : String) : Rx :=
  (s.data.map (fun c => Rx.cls (fun x => x = c.toLower || x = c.toUpper))).foldr .seq .eps

/-- `\s` as a pattern. -/
def rxWs : Rx := .cls isPyWs

/-- `\d` as a pattern. -/
def rxDigit : Rx := .cls isPyDigit

/-- `.` with or without `re.DOTALL`. -/
def rxDot (dotall : Bool) : Rx := .cls (fun c => dotall || c ≠ '\n')

/-- Greedy plus `a+`. -/
def rxPlusG (a : Rx) : Rx := .seq a (.starG a)

/-- `\n`. -/
def rxNL : Rx := .lit '\n'

/-- Terminator `(?:\n|$)`, ubiquitous in the sources'' field patterns. -/
def rxNLorEnd : Rx := .alt rxNL .eos

/-! ## `json.loads`: RFC 8259 JSON parsing

Models the strict-parse tier of each normalization cascade.  Numbers are kept
as raw tokens (see the header comment).  Not modelled: the non-standard
`NaN`/`Infinity` extensions of Python''s `json` and surrogate-pair combining
in `\u` escapes; none of the embedded claims involve them. -/

/-- A parsed JSON value. -/
inductive Json where
  /-- JSON `null`. -/
  | null : Json
  /-- JSON boolean. -/
  | bool (b : Bool) : Json
  /-- JSON number, kept as its raw token text. -/
  | num (raw : String) : Json
  /-- JSON string. -/
  | str (s : String) : Json
  /-- JSON array. -/
  | arr (items : List Json) : Json
  /-- JSON object, members in textual order. -/
  | obj (members : List (String × Json)) : Json
deriving Repr

/-- JSON whitespace (RFC 8259: space, tab, newline, carriage return). -/
def isJsonWs (c : Char) : Bool :=
  match c with
  | ' ' | '\t' | '\n' | '\r' => true
  | _ => false

/-- Skip JSON whitespace. -/
def jskipWs (cs : List Char) : List Char := cs.dropWhile isJsonWs

/-- Hex digit value, by code point. -/
def jhexVal (c : Char) : Option Nat :=
  let n := c.toNat
  if 48 ≤ n ∧ n ≤ 57 then some (n - 48)
  else if 97 ≤ n ∧ n ≤ 102 then some (n - 87)
  else if 65 ≤ n ∧ n ≤ 70 then some (n - 55)
  else none

/-- Single-character escapes of JSON strings (`\"`, `\\`, `\/`, `\b`, `\f`,
`\n`, `\r`, `\t`). -/
def junescape (e : Char) : Option Char :=
  if e = '"' ∨ e = '\\' ∨ e = '/' then some e
  else if e = 'n' then some '\n'
  else if e = 't' then some '\t'
  else if e = 'r' then some '\r'
  else if e = 'b' then some (Char.ofNat 8)
  else if e = 'f' then some (Char.ofNat 12)
  else none

/-- Parse a JSON string body after the opening quote; `acc` holds the
decoded characters in reverse.  Unescaped control characters are rejected,
as in strict-mode `json.loads`. -/
def jparseStrAux (acc : List Char) : List Char → Option (String × List Char)
  | [] => none
  | c :: rest =>
    if c = '"' then some (⟨acc.reverse⟩, rest)
    else if c = '\\' then
      match rest with
      | [] => none
      | e :: rest2 =>
        if e = 'u' then
          match rest2 with
          | h1 :: h2 :: h3 :: h4 :: rest3 =>
            match jhexVal h1, jhexVal h2, jhexVal h3, jhexVal h4 with
            | some v1, some v2, some v3, some v4 =>
              jparseStrAux (Char.ofNat (v1 * 4096 + v2 * 256 + v3 * 16 + v4) :: acc) rest3
            | _, _, _, _ => none
          | _ => none
        else
          match junescape e with
          | some decoded => jparseStrAux (decoded :: acc) rest2
          | none => none
    else if c.toNat < 32 then none
    else jparseStrAux (c :: acc) rest

/-- Split off a maximal leading run of ASCII digits. -/
def jtakeDigits (cs : List Char) : List Char × List Char := cs.span isPyDigit

/-- Parse a JSON number token, returning its raw text (strict grammar,
including the no-leading-zero rule). -/
def jparseNum (cs : List Char) : Option (String × List Char) :=
  let (sgn, cs1) : List Char × List Char :=
    match cs with
    | '-' :: r => (['-'], r)
    | _ => ([], cs)
  let (ds, cs2) := jtakeDigits cs1
  if ds = [] then none
  else if 1 < ds.length ∧ ds.headD ' ' = '0' then none
  else
    let fracRes : Option (List Char × List Char) :=
      match cs2 with
      | '.' :: r =>
        let (fs, r2) := jtakeDigits r
        if fs = [] then none else some ('.' :: fs, r2)
      | _ => some ([], cs2)
    match fracRes with
    | none => none
    | some (frac, cs3) =>
      let expRes : Option (List Char × List Char) :=
        match cs3 with
        | 'e' :: r | 'E' :: r =>
          let (es, r1) : List Char × List Char :=
            match r with
            | '+' :: r2 => (['e', '+'], r2)
            | '-' :: r2 => (['e', '-'], r2)
            | _ => (['e'], r)
          let (xs, r3) := jtakeDigits r1
          if xs = [] then none else some (es ++ xs, r3)
        | _ => some ([], cs3)
      match expRes with
      | none => none
      | some (ex, cs4) => some (⟨sgn ++ ds ++ frac ++ ex⟩, cs4)

mutual

/-- Parse one JSON value (fuel-structural recursion). -/
def jparseVal : Nat → List Char → Option (Json × List Char)
  | 0, _ => none
  | fuel + 1, cs =>
    match jskipWs cs with
    | [] => none
    | c :: r =>
      if c = '"' then
        match jparseStrAux [] r with
        | some (s, r2) => some (.str s, r2)
        | none => none
      else if c = chLB then
        match jskipWs r with
        | [] => none
        | x :: r2 =>
          if x = chRB then some (.obj [], r2)
          else
            match jparseMembers fuel (x :: r2) with
            | some (ms, r3) => some (.obj ms, r3)
            | none => none
      else if c = '[' then
        match jskipWs r with
        | [] => none
        | x :: r2 =>
          if x = ']' then some (.arr [], r2)
          else
            match jparseElems fuel (x :: r2) with
            | some (vs, r3) => some (.arr vs, r3)
            | none => none
      else if c = '-' ∨ isPyDigit c then
        match jparseNum (c :: r) with
        | some (tok, r2) => some (.num tok, r2)
        | none => none
      else if ['n', 'u', 'l', 'l'].isPrefixOf (c :: r) then
        some (.null, (c :: r).drop 4)
      else if ['t', 'r', 'u', 'e'].isPrefixOf (c :: r) then
        some (.bool true, (c :: r).drop 4)
      else if ['f', 'a', 'l', 's', 'e'].isPrefixOf (c :: r) then
        some (.bool false, (c :: r).drop 5)
      else none

/-- Parse one-or-more comma-separated array elements up to `]`. -/
def jparseElems : Nat → List Char → Option (List Json × List Char)
  | 0, _ => none
  | fuel + 1, cs =>
    match jparseVal fuel cs with
    | none => none
    | some (v, r) =>
      match jskipWs r with
      | ',' :: r2 =>
        match jparseElems fuel r2 with
        | some (vs, r3) => some (v :: vs, r3)
        | none => none
      | ']' :: r2 => some ([v], r2)
      | _ => none

/-- Parse one-or-more comma-separated object members up to the closing
brace. -/
def jparseMembers : Nat → List Char → Option (List (String × Json) × List Char)
  | 0, _ => none
  | fuel + 1, cs =>
    match jskipWs cs with
    | '"' :: r =>
      match jparseStrAux [] r with
      | none => none
      | some (key, r1) =>
        match jskipWs r1 with
        | ':' :: r2 =>
          match jparseVal fuel r2 with
          | none => none
          | some (v, r3) =>
            match jskipWs r3 with
            | ',' :: r4 =>
              match jparseMembers fuel r4 with
              | some (ms, r5) => some ((key, v) :: ms, r5)
              | none => none
            | x :: r4 =>
              if x = chRB then some ([(key, v)], r4) else none
            | [] => none
        | _ => none
    | _ => none

end

/-- Python `json.loads`: parse a complete document; trailing non-whitespace is
an error.  `none` models a raised `JSONDecodeError`. -/
def pyJsonLoads (s : String) : Option Json :=
  match jparseVal (s.data.length + 1) s.data with
  | some (v, rest) => if jskipWs rest = [] then some v else none
  | none => none

/-- Python `dict` built from a JSON object: later duplicate keys win, so
lookup takes the last binding. -/
def jget (members : List (String × Json)) (key : String) : Option Json :=
  members.foldl (fun acc kv => if kv.1 = key then some kv.2 else acc) none

/-- `dict.get(key, default)` over a JSON object''s members. -/
def jgetD (members : List (String × Json)) (key : String) (dflt : Json) : Json :=
  (jget members key).getD dflt

/-- A JSON value accepted where pydantic requires `str`.  Non-string values
make the model construction fail (the bare `except` of the strict tier then
falls through to pattern extraction). -/
def asString : Json → Option String
  | .str s => some s
  | _ => none

/-- A JSON value accepted where pydantic requires `List[str]`. -/
def asStrList : Json → Option (List String)
  | .arr items => items.mapM asString
  | _ => none

/-- Python iteration `for v in x`: lists yield their items, strings their
one-character substrings, dicts their keys; any other value raises
`TypeError` (`none`). -/
def pyIter : Json → Option (List Json)
  | .arr items => some items
  | .str s => some (s.data.map (fun c => .str ⟨[c]⟩))
  | .obj ms => some (ms.map (fun kv => Json.str kv.1))
  | _ => none

/-! ## FactCheckerAgent data model and `_process_output`
(`src/agents/fact_checker_agent.py`) -/

/-- `VerificationResult` (fact_checker_agent.py): result of a single fact
verification. -/
structure VerificationResult where
  /-- The claim that was checked. -/
  claim : String
  /-- Assessment of the claim. -/
  assessment : String
  /-- Explanation of the assessment. -/
  explanation : String
  /-- Confidence level. -/
  confidence : String
  /-- Sources consulted for verification. -/
  sources : List String
deriving Repr, DecidableEq

/-- `FactCheckerOutput` (fact_checker_agent.py). -/
structure FactCheckerOutput where
  /-- List of verification results. -/
  verifications : List VerificationResult
  /-- Summary of fact-checking results. -/
  summary : String
deriving Repr, DecidableEq

/-- One entry of the strict tier: `VerificationResult(claim=v.get("claim",
""), assessment=v.get("assessment", "Unverified"), explanation=
v.get("explanation", ""), confidence=v.get("confidence", "Low"),
sources=v.get("sources", []))` on an object `v`; a non-object entry or a
non-string (or non-string-list) field raises and aborts the tier. -/
def vFromJson : Json → Option VerificationResult
  | .obj fields => do
    let claim ← asString (jgetD fields "claim" (.str ""))
    let assessment ← asString (jgetD fields "assessment" (.str "Unverified"))
    let explanation ← asString (jgetD fields "explanation" (.str ""))
    let confidence ← asString (jgetD fields "confidence" (.str "Low"))
    let sources ← asStrList (jgetD fields "sources" (.arr []))
    some ⟨claim, assessment, explanation, confidence, sources⟩
  | _ => none

/-- Strict-parse tier of `FactCheckerAgent._process_output` (the `try` block,
lines 107-123): `json.loads`, then build from `data.get("verifications",
[])` and `data.get("summary", "")`.  `none` models any exception caught by
the bare `except` (parse failure, non-object document, ill-typed fields). -/
def factJsonTier (s : String) : Option FactCheckerOutput := do
  match pyJsonLoads s with
  | some (.obj fields) =>
    let items ← pyIter (jgetD fields "verifications" (.arr []))
    let vs ← items.mapM vFromJson
    let summ ← asString (jgetD fields "summary" (.str ""))
    some ⟨vs, summ⟩
  | _ => none

/-- `claim_pattern = r"(?:Claim|CLAIM)\s*(?:\d+)?:\s*(.*?)(?:\n|$)"`, used
with `re.DOTALL`. -/
def factClaimPat : Rx :=
  .seq (.alt (rxLit "Claim") (rxLit "CLAIM"))
    (.seq (.starG rxWs)
      (.seq (.optG (rxPlusG rxDigit))
        (.seq (.lit ':')
          (.seq (.starG rxWs)
            (.seq (.grp 1 (.starL (rxDot true)))
              rxNLorEnd)))))

/-- `assessment_pattern = r"(?:Assessment|ASSESSMENT):\s*(.*?)(?:\n|$)"` (no
flags). -/
def factAssessPat : Rx :=
  .seq (.alt (rxLit "Assessment") (rxLit "ASSESSMENT"))
    (.seq (.lit ':')
      (.seq (.starG rxWs)
        (.seq (.grp 1 (.starL (rxDot false)))
          rxNLorEnd)))

/-- `explanation_pattern =
r"(?:Explanation|EXPLANATION):\s*(.*?)(?:\n\n|\n(?:Claim|Confidence)|$)"`,
used with `re.DOTALL`. -/
def factExplPat : Rx :=
  .seq (.alt (rxLit "Explanation") (rxLit "EXPLANATION"))
    (.seq (.lit ':')
      (.seq (.starG rxWs)
        (.seq (.grp 1 (.starL (rxDot true)))
          (.alt (.seq rxNL rxNL)
            (.alt (.seq rxNL (.alt (rxLit "Claim") (rxLit "Confidence")))
              .eos)))))

/-- `confidence_pattern = r"(?:Confidence|CONFIDENCE):\s*(.*?)(?:\n|$)"` (no
flags). -/
def factConfPat : Rx :=
  .seq (.alt (rxLit "Confidence") (rxLit "CONFIDENCE"))
    (.seq (.lit ':')
      (.seq (.starG rxWs)
        (.seq (.grp 1 (.starL (rxDot false)))
          rxNLorEnd)))

/-- `sources_pattern = r"(?:Sources|SOURCES):\s*(.*?)(?:\n\n|\n(?:Claim)|$)"`,
used with `re.DOTALL`. -/
def factSourcesPat : Rx :=
  .seq (.alt (rxLit "Sources") (rxLit "SOURCES"))
    (.seq (.lit ':')
      (.seq (.starG rxWs)
        (.seq (.grp 1 (.starL (rxDot true)))
          (.alt (.seq rxNL rxNL)
            (.alt (.seq rxNL (rxLit "Claim"))
              .eos)))))

/-- `r",|\n-"`: separator of source lists (also used for trend supporting
articles). -/
def commaOrNLDashPat : Rx := .alt (.lit ',') (.seq rxNL (.lit '-'))

/-- `r"(?:Summary|SUMMARY):(.*?)(?:$)"`, used with `re.DOTALL | re.IGNORECASE`
by both the fact-checker and the trend agent. -/
def summaryPat : Rx :=
  .seq (.alt (rxLitCI "Summary") (rxLitCI "SUMMARY"))
    (.seq (.lit ':')
      (.seq (.grp 1 (.starL (rxDot true)))
        .eos))

/-- One pattern-tier verification entry (fact_checker_agent.py lines
137-166): the captured claim, then field searches inside the 500- or
1000-character windows following the claim match, each defaulting when
absent. -/
def factBuildVerification (s : String) (m : MatchRes) : VerificationResult :=
  let claim := pyStrip (m.grpD 1)
  let pos := m.mend
  let assessment :=
    match rsearch factAssessPat (pySlice s pos (pos + 500)) with
    | some am => pyStrip (am.grpD 1)
    | none => "Unverified"
  let explanation :=
    match rsearch factExplPat (pySlice s pos (pos + 1000)) with
    | some em => pyStrip (em.grpD 1)
    | none => ""
  let confidence :=
    match rsearch factConfPat (pySlice s pos (pos + 500)) with
    | some cm => pyStrip (cm.grpD 1)
    | none => "Low"
  let sources :=
    match rsearch factSourcesPat (pySlice s pos (pos + 500)) with
    | some sm =>
      ((rsplitRx commaOrNLDashPat (pyStrip (sm.grpD 1))).map pyStrip).filter
        (fun x => x ≠ "")
    | none => []
  ⟨claim, assessment, explanation, confidence, sources⟩

/-- Pattern-extraction tier of `FactCheckerAgent._process_output` (the
`except` block, lines 124-175): all claim matches become verification
entries; the summary is the `Summary:` section when present, otherwise the
raw output unchanged. -/
def factPatternTier (s : String) : FactCheckerOutput :=
  let verifications := (rfinditer factClaimPat s).map (factBuildVerification s)
  let summary :=
    match rsearch summaryPat s with
    | some sm => pyStrip (sm.grpD 1)
    | none => s
  ⟨verifications, summary⟩

/-- `FactCheckerAgent._process_output` with an explicit second tier, to state
that the strict tier alone decides the result when it succeeds. -/
def factProcessOutputWith (tier2 : String → FactCheckerOutput) (s : String) :
    FactCheckerOutput :=
  match factJsonTier s with
  | some out => out
  | none => tier2 s

/-- `FactCheckerAgent._process_output`: strict parse first, pattern
extraction on any exception.  Total: it never raises. -/
def factProcessOutput : String → FactCheckerOutput :=
  factProcessOutputWith factPatternTier

/-! ## TrendAgent data model and `_process_output`
(`src/agents/trend_agent.py`) -/

/-- `Trend` (trend_agent.py): a single identified trend. -/
structure Trend where
  /-- Name/title of the trend. -/
  name : String
  /-- Detailed description of the trend. -/
  description : String
  /-- Strength of the trend. -/
  strength : String
  /-- Articles supporting this trend identification. -/
  supporting_articles : List String
  /-- Estimated timeframe for this trend. -/
  timeframe : String
deriving Repr, DecidableEq

/-- `TrendOutput` (trend_agent.py). -/
structure TrendOutput where
  /-- List of identified trends. -/
  trends : List Trend
  /-- Higher-level or meta trends. -/
  meta_trends : List String
  /-- Summary of trend analysis. -/
  summary : String
deriving Repr, DecidableEq

/-- One entry of the trend strict tier: `Trend(name=t.get("name", ""),
description=t.get("description", ""), strength=t.get("strength",
"Emerging"), supporting_articles=t.get("supporting_articles", []),
timeframe=t.get("timeframe", "Short-term"))`. -/
def tFromJson : Json → Option Trend
  | .obj fields => do
    let name ← asString (jgetD fields "name" (.str ""))
    let description ← asString (jgetD fields "description" (.str ""))
    let strength ← asString (jgetD fields "strength" (.str "Emerging"))
    let supporting ← asStrList (jgetD fields "supporting_articles" (.arr []))
    let timeframe ← asString (jgetD fields "timeframe" (.str "Short-term"))
    some ⟨name, description, strength, supporting, timeframe⟩
  | _ => none

/-- Strict-parse tier of `TrendAgent._process_output` (lines 106-124). -/
def trendJsonTier (s : String) : Option TrendOutput := do
  match pyJsonLoads s with
  | some (.obj fields) =>
    let items ← pyIter (jgetD fields "trends" (.arr []))
    let ts ← items.mapM tFromJson
    let metas ← asStrList (jgetD fields "meta_trends" (.arr []))
    let summ ← asString (jgetD fields "summary" (.str ""))
    some ⟨ts, metas, summ⟩
  | _ => none

/-- `trend_pattern = r"(?:Trend|TREND)\s*(?:\d+)?:\s*(.*?)(?:\n|$)"`, used
with `re.DOTALL`. -/
def trendPat : Rx :=
  .seq (.alt (rxLit "Trend") (rxLit "TREND"))
    (.seq (.starG rxWs)
      (.seq (.optG (rxPlusG rxDigit))
        (.seq (.lit ':')
          (.seq (.starG rxWs)
            (.seq (.grp 1 (.starL (rxDot true)))
              rxNLorEnd)))))

/-- `description_pattern = r"(?:Description|DESCRIPTION):\s*(.*?)(?:\n\n|\n
(?:Strength|Trend|Articles|Timeframe)|$)"`, used with `re.DOTALL`. -/
def trendDescPat : Rx :=
  .seq (.alt (rxLit "Description") (rxLit "DESCRIPTION"))
    (.seq (.lit ':')
      (.seq (.starG rxWs)
        (.seq (.grp 1 (.starL (rxDot true)))
          (.alt (.seq rxNL rxNL)
            (.alt (.seq rxNL
                (.alt (rxLit "Strength")
                  (.alt (rxLit "Trend") (.alt (rxLit "Articles") (rxLit "Timeframe")))))
              .eos)))))

/-- `strength_pattern = r"(?:Strength|STRENGTH):\s*(.*?)(?:\n|$)"` (no
flags). -/
def trendStrengthPat : Rx :=
  .seq (.alt (rxLit "Strength") (rxLit "STRENGTH"))
    (.seq (.lit ':')
      (.seq (.starG rxWs)
        (.seq (.grp 1 (.starL (rxDot false)))
          rxNLorEnd)))

/-- `articles_pattern = r"(?:Supporting Articles|SUPPORTING ARTICLES|Articles|
ARTICLES):\s*(.*?)(?:\n\n|\n(?:Timeframe|Trend)|$)"`, used with
`re.DOTALL`. -/
def trendArticlesPat : Rx :=
  .seq (.alt (rxLit "Supporting Articles")
      (.alt (rxLit "SUPPORTING ARTICLES") (.alt (rxLit "Articles") (rxLit "ARTICLES"))))
    (.seq (.lit ':')
      (.seq (.starG rxWs)
        (.seq (.grp 1 (.starL (rxDot true)))
          (.alt (.seq rxNL rxNL)
            (.alt (.seq rxNL (.alt (rxLit "Timeframe") (rxLit "Trend")))
              .eos)))))

/-- `timeframe_pattern = r"(?:Timeframe|TIMEFRAME):\s*(.*?)(?:\n|$)"` (no
flags). -/
def trendTimeframePat : Rx :=
  .seq (.alt (rxLit "Timeframe") (rxLit "TIMEFRAME"))
    (.seq (.lit ':')
      (.seq (.starG rxWs)
        (.seq (.grp 1 (.starL (rxDot false)))
          rxNLorEnd)))

/-- `r"(?:Meta[- ]Trends|META[- ]TRENDS):(.*?)(?:\n\n|$)"`, used with
`re.DOTALL | re.IGNORECASE`. -/
def trendMetaPat : Rx :=
  .seq (.alt
      (.seq (rxLitCI "Meta")
        (.seq (.cls (fun c => c = '-' || c = ' ')) (rxLitCI "Trends")))
      (.seq (rxLitCI "META")
        (.seq (.cls (fun c => c = '-' || c = ' ')) (rxLitCI "TRENDS"))))
    (.seq (.lit ':')
      (.seq (.grp 1 (.starL (rxDot true)))
        (.alt (.seq rxNL rxNL) .eos)))

/-- `r"\n-|\n\d+\."`: separator of meta-trend lists. -/
def nlDashOrNumPat : Rx :=
  .alt (.seq rxNL (.lit '-'))
    (.seq rxNL (.seq (rxPlusG rxDigit) (.lit '.')))

/-- One pattern-tier trend entry (trend_agent.py lines 138-167). -/
def trendBuildTrend (s : String) (m : MatchRes) : Trend :=
  let name := pyStrip (m.grpD 1)
  let pos := m.mend
  let description :=
    match rsearch trendDescPat (pySlice s pos (pos + 1000)) with
    | some dm => pyStrip (dm.grpD 1)
    | none => ""
  let strength :=
    match rsearch trendStrengthPat (pySlice s pos (pos + 500)) with
    | some sm => pyStrip (sm.grpD 1)
    | none => "Emerging"
  let supporting :=
    match rsearch trendArticlesPat (pySlice s pos (pos + 1000)) with
    | some am =>
      ((rsplitRx commaOrNLDashPat (pyStrip (am.grpD 1))).map pyStrip).filter
        (fun x => x ≠ "")
    | none => []
  let timeframe :=
    match rsearch trendTimeframePat (pySlice s pos (pos + 500)) with
    | some tm => pyStrip (tm.grpD 1)
    | none => "Short-term"
  ⟨name, description, strength, supporting, timeframe⟩

/-- Pattern-extraction tier of `TrendAgent._process_output` (lines
125-184). -/
def trendPatternTier (s : String) : TrendOutput :=
  let trends := (rfinditer trendPat s).map (trendBuildTrend s)
  let metas :=
    match rsearch trendMetaPat s with
    | some mm =>
      ((rsplitRx nlDashOrNumPat (pyStrip (mm.grpD 1))).map pyStrip).filter
        (fun x => x ≠ "")
    | none => []
  let summary :=
    match rsearch summaryPat s with
    | some sm => pyStrip (sm.grpD 1)
    | none => s
  ⟨trends, metas, summary⟩

/-- `TrendAgent._process_output` with an explicit second tier. -/
def trendProcessOutputWith (tier2 : String → TrendOutput) (s : String) :
    TrendOutput :=
  match trendJsonTier s with
  | some out => out
  | none => tier2 s

/-- `TrendAgent._process_output`: strict parse first, pattern extraction on
any exception.  Total: it never raises. -/
def trendProcessOutput : String → TrendOutput :=
  trendProcessOutputWith trendPatternTier

/-! ## Coordinator markdown article extraction
(`src/agents/coordinator_agent.py` lines 192-275) -/

/-- An article record as carried in `articles_data` (the dict with keys
`title`, `description`, `source`, `url`, `published_at`); `NewsArticle`
objects from `NewsAgent` carry the same fields. -/
structure Article where
  /-- Article title. -/
  title : String
  /-- Article description. -/
  description : String
  /-- Article source. -/
  source : String
  /-- Article URL. -/
  url : String
  /-- Publication timestamp text. -/
  published_at : String
deriving Repr, DecidableEq

/-- `numbered_article_pattern = r"##\s+\d+\.\s+\[(.*?)\]\((.*?)\)"`. -/
def numberedArticlePat : Rx :=
  .seq (rxLit "##")
    (.seq (rxPlusG rxWs)
      (.seq (rxPlusG rxDigit)
        (.seq (.lit '.')
          (.seq (rxPlusG rxWs)
            (.seq (.lit '[')
              (.seq (.grp 1 (.starL (rxDot false)))
                (.seq (.lit ']')
                  (.seq (.lit '(')
                    (.seq (.grp 2 (.starL (rxDot false)))
                      (.lit ')'))))))))))

/-- `r"\*\*Source:\*\*\s*(.*?)(?:\n|$)"`. -/
def mdSourcePat : Rx :=
  .seq (rxLit "**Source:**")
    (.seq (.starG rxWs) (.seq (.grp 1 (.starL (rxDot false))) rxNLorEnd))

/-- `r"\*\*Published At:\*\*\s*(.*?)(?:\n|$)"`. -/
def mdPublishedPat : Rx :=
  .seq (rxLit "**Published At:**")
    (.seq (.starG rxWs) (.seq (.grp 1 (.starL (rxDot false))) rxNLorEnd))

/-- `r"- (.*?)(?:\n\n|$)"`. -/
def mdDashDescPat : Rx :=
  .seq (rxLit "- ")
    (.seq (.grp 1 (.starL (rxDot false)))
      (.alt (.seq rxNL rxNL) .eos))

/-- `article_pattern = r"##\s+Article\s+\d+:\s+\[(.*?)\]\((.*?)\)"`. -/
def articleXPat : Rx :=
  .seq (rxLit "##")
    (.seq (rxPlusG rxWs)
      (.seq (rxLit "Article")
        (.seq (rxPlusG rxWs)
          (.seq (rxPlusG rxDigit)
            (.seq (.lit ':')
              (.seq (rxPlusG rxWs)
                (.seq (.lit '[')
                  (.seq (.grp 1 (.starL (rxDot false)))
                    (.seq (.lit ']')
                      (.seq (.lit '(')
                        (.seq (.grp 2 (.starL (rxDot false)))
                          (.lit ')'))))))))))))

/-- `r"\*\*Description:?\*\*\s*(.*?)(?:\n|$)"`. -/
def mdDescColonPat : Rx :=
  .seq (rxLit "**Description")
    (.seq (.optG (.lit ':'))
      (.seq (rxLit "**")
        (.seq (.starG rxWs) (.seq (.grp 1 (.starL (rxDot false))) rxNLorEnd))))

/-- `r"\*\*Source:?\*\*\s*(.*?)(?:\n|$)"`. -/
def mdSourceColonPat : Rx :=
  .seq (rxLit "**Source")
    (.seq (.optG (.lit ':'))
      (.seq (rxLit "**")
        (.seq (.starG rxWs) (.seq (.grp 1 (.starL (rxDot false))) rxNLorEnd))))

/-- `r"\*\*Published(?:\s+At)?:?\*\*\s*(.*?)(?:\n|$)"`. -/
def mdPublishedOptPat : Rx :=
  .seq (rxLit "**Published")
    (.seq (.optG (.seq (rxPlusG rxWs) (rxLit "At")))
      (.seq (.optG (.lit ':'))
        (.seq (rxLit "**")
          (.seq (.starG rxWs) (.seq (.grp 1 (.starL (rxDot false))) rxNLorEnd)))))

/-- `r"(?:##|###)\s+\d+\.\s+\[(.*?)\]\((.*?)\)"`. -/
def headlinePat : Rx :=
  .seq (.alt (rxLit "##") (rxLit "###"))
    (.seq (rxPlusG rxWs)
      (.seq (rxPlusG rxDigit)
        (.seq (.lit '.')
          (.seq (rxPlusG rxWs)
            (.seq (.lit '[')
              (.seq (.grp 1 (.starL (rxDot false)))
                (.seq (.lit ']')
                  (.seq (.lit '(')
                    (.seq (.grp 2 (.starL (rxDot false)))
                      (.lit ')'))))))))))

/-- `r"output/graphs/[\w-]+\.png"`: graph filenames mentioned in analyst
insights. -/
def graphPat : Rx :=
  .seq (rxLit "output/graphs/")
    (.seq (rxPlusG (.cls (fun c => isPyWord c || c = '-')))
      (rxLit ".png"))

/-- Pair each match with its successor (for the block slicing between
consecutive numbered-article matches). -/
def zipNext : List MatchRes → List (MatchRes × Option MatchRes)
  | [] => []
  | [m] => [(m, none)]
  | m :: n :: rest => (m, some n) :: zipNext (n :: rest)

/-- Numbered-pattern extraction (coordinator lines 199-227): each match
yields an article; metadata is searched in the block running to the next
match (or the end of the text). -/
def mdExtractNumbered (md : String) (ms : List MatchRes) : List Article :=
  (zipNext ms).map (fun pr =>
    let m := pr.1
    let title := pyStrip (m.grpD 1)
    let url := pyStrip (m.grpD 2)
    let endPos := match pr.2 with | some n2 => n2.mstart | none => md.data.length
    let block := pySlice md m.mend endPos
    let source :=
      match rsearch mdSourcePat block with
      | some sm => pyStrip (sm.grpD 1)
      | none => "Unknown source"
    let published :=
      match rsearch mdPublishedPat block with
      | some pm => pyStrip (pm.grpD 1)
      | none => ""
    let description :=
      match rsearch mdDashDescPat block with
      | some dm => pyStrip (dm.grpD 1)
      | none => "No description"
    ⟨title, description, source, url, published⟩)

/-- `"## Article N:"` extraction (coordinator lines 230-257): block runs to
the next `"##"` found after the match, or to the end. -/
def mdExtractArticleX (md : String) : List Article :=
  (rfinditer articleXPat md).map (fun m =>
    let title := pyStrip (m.grpD 1)
    let url := pyStrip (m.grpD 2)
    let blockEnd := match pyFind md "##" m.mend with | some i => i | none => md.data.length
    let block := pySlice md m.mend blockEnd
    let description :=
      match rsearch mdDescColonPat block with
      | some dm => pyStrip (dm.grpD 1)
      | none => "No description"
    let source :=
      match rsearch mdSourceColonPat block with
      | some sm => pyStrip (sm.grpD 1)
      | none => "Unknown source"
    let published :=
      match rsearch mdPublishedOptPat block with
      | some pm => pyStrip (pm.grpD 1)
      | none => ""
    ⟨title, description, source, url, published⟩)

/-- Headline fallback extraction (coordinator lines 260-273); groups are used
unstripped, description and source are fixed. -/
def mdExtractHeadlines (md : String) : List Article :=
  (rfinditer headlinePat md).map (fun m =>
    ⟨m.grpD 1, "Extracted from headline", "Unknown source", m.grpD 2, ""⟩)

/-- Full markdown extraction cascade of the coordinator (lines 192-275):
numbered pattern first; otherwise the `"Article N"` pattern; and if that
yielded nothing, the headline fallback. -/
def mdExtractArticles (md : String) : List Article :=
  match rfinditer numberedArticlePat md with
  | [] =>
    match mdExtractArticleX md with
    | [] => mdExtractHeadlines md
    | arts => arts
  | ms => mdExtractNumbered md ms

/-! ## Coordinator data model (`src/agents/coordinator_agent.py`) -/

/-- `CoordinatorInput` (the PipelineRequest), with the source''s field
defaults. -/
structure CoordinatorInput where
  /-- News category to fetch articles from. -/
  category : String := "general"
  /-- Number of articles to fetch. -/
  count : Int := 5
  /-- Optional 2-letter country code. -/
  country : Option String := none
  /-- Optional comma-separated source ids. -/
  sources : Option String := none
  /-- Optional search query. -/
  query : Option String := none
  /-- Optional stock ticker symbol. -/
  ticker_symbol : Option String := none
  /-- Voice for audio output. -/
  voice : Option String := some "alloy"
  /-- Whether to generate an audio file from the summary. -/
  generate_audio : Bool := true
  /-- Style of the summary. -/
  summary_style : Option String := some "conversational"
  /-- Depth of analysis. -/
  analysis_depth : Option String := some "moderate"
  /-- Whether to use the fact checker agent. -/
  use_fact_checker : Bool := true
  /-- Whether to use the trend analyzer agent. -/
  use_trend_analyzer : Bool := true
  /-- Maximum number of fact claims to check. -/
  max_fact_claims : Int := 5
deriving Repr, DecidableEq

/-- `model_dump()` of the `StockInfo` payload returned by a successful
`FinanceAgent` run; its internal fields are never read by the coordinator, so
it is modelled as an opaque key-value record. -/
abbrev FinanceData := List (String × String)

/-- The typed payloads stored in `AgentResult.data` by the coordinator; each
success site constructs exactly one dict shape, and a failed result carries
the empty dict (`empty`). -/
inductive StageData where
  /-- `{}` (the `default_factory=dict` default of `AgentResult.data`). -/
  | empty : StageData
  /-- NewsAgent success payload: `category`, `article_count`, `summary`. -/
  | news (category : String) (article_count : Nat) (summary : String) : StageData
  /-- FinanceAgent success payload: the `model_dump()` of its output. -/
  | finance (d : FinanceData) : StageData
  /-- AnalystAgent success payload: `insights`, `trends`, `implications`. -/
  | analyst (insights : String) (trends implications : List String) : StageData
  /-- FactCheckerAgent success payload: `verifications`, `summary`. -/
  | factCheck (verifications : List VerificationResult) (summary : String) : StageData
  /-- TrendAgent success payload: `trends`, `meta_trends`, `summary`. -/
  | trend (trends : List Trend) (meta_trends : List String) (summary : String) : StageData
  /-- WriterAgent success payload: `final_summary`, `markdown_output`,
  `audio_file`. -/
  | writer (final_summary : String) (markdown_output : Option String)
      (audio_file : Option String) : StageData
deriving Repr, DecidableEq

/-- `AgentResult` (the StageResult): outcome of one stage. -/
structure AgentResult where
  /-- Name of the agent. -/
  agent_name : String
  /-- Whether the agent completed successfully. -/
  success : Bool
  /-- Output data from the agent (`{}` when absent). -/
  data : StageData := .empty
  /-- Error message if the agent failed. -/
  error : Option String := none
deriving Repr, DecidableEq

/-- `result.data.get(key, "")` for the string-valued keys the coordinator
reads back out of success payloads. -/
def StageData.getStrD : StageData → String → String
  | .news _ _ s, "summary" => s
  | .news c _ _, "category" => c
  | .analyst ins _ _, "insights" => ins
  | .factCheck _ s, "summary" => s
  | .trend _ _ s, "summary" => s
  | .writer fs _ _, "final_summary" => fs
  | _, _ => ""

/-- `CoordinatorOutput` (the PipelineOutput).  The class declares no `error`
field: the `error=` keyword argument passed on the abort and degraded paths
is discarded by pydantic''s default extra-ignoring construction. -/
structure CoordinatorOutput where
  /-- Summary of the news. -/
  news_summary : Option String := none
  /-- Path to the generated audio file. -/
  audio_file : Option String := none
  /-- Full markdown output. -/
  markdown : Option String := none
  /-- Analysis of the news. -/
  analysis : Option String := none
  /-- Fact check results. -/
  fact_check : Option String := none
  /-- Identified trends. -/
  trends : Option String := none
  /-- Financial data for the requested ticker symbol. -/
  financial_data : Option FinanceData := none
  /-- List of paths to generated graph files. -/
  graph_files : Option (List String) := none
  /-- Results from individual agents. -/
  agent_results : List AgentResult := []
deriving Repr, DecidableEq

/-- The fields of `NewsSummary` (example_agent.py) read by the
coordinator. -/
structure NewsSummaryR where
  /-- News category. -/
  category : String
  /-- Article count as reported by the news agent. -/
  article_count : Int := 0
  /-- Structured articles. -/
  articles : List Article
  /-- Summary text. -/
  summary : String
  /-- Audio file reference (unused by the coordinator). -/
  audio_file : Option String := none
  /-- Markdown text (fallback article-extraction input). -/
  markdown : Option String := none
deriving Repr, DecidableEq

/-- Outcome of `FinanceAgent.run_sync`: either a `FinanceOutput` payload or a
`FinanceErrorOutput` with an error message and the symbol. -/
inductive FinanceOutcome where
  /-- Successful `FinanceOutput`. -/
  | good (d : FinanceData) : FinanceOutcome
  /-- `FinanceErrorOutput(error=..., symbol=...)`. -/
  | errorOutput (error symbol : String) : FinanceOutcome
deriving Repr, DecidableEq

/-- The fields of `AnalystOutput` read by the coordinator. -/
structure AnalystR where
  /-- Key insights text. -/
  insights : String
  /-- Identified trends. -/
  trends : List String := []
  /-- Potential implications. -/
  implications : List String := []
  /-- Confidence level. -/
  confidence : Option String := none
deriving Repr, DecidableEq

/-- The fields of `WriterOutput` read by the coordinator. -/
structure WriterR where
  /-- The final concise summary. -/
  final_summary : String
  /-- Markdown version of the report. -/
  markdown_output : Option String := none
  /-- Audio file reference (always `None` from `_process_output`). -/
  audio_file : Option String := none
deriving Repr, DecidableEq

/-- Outcomes of the external stage invocations of one pipeline run.  Each
`Except` field models one call site of `CoordinatorAgent.run` (or of the
helper coroutines it gathers): `.ok` is a normally returned value, `.error
msg` an exception raised by the call and caught by the enclosing `try` (or
helper) block.  The fact-check and trend stages are modelled at the
`Runner.run` boundary: their raw model text is normalized by the embedded
`_process_output` functions exactly as `BaseAgent.run` does.  Note that in
the committed sources the `news` and `trendRaw` calls always raise
`TypeError` at runtime (`parent_trace` keyword mismatch, see the header),
which the `.error` case covers. -/
structure Behaviour where
  /-- Outcome of `await news_agent.run(news_input, parent_trace=...)`. -/
  news : Except String NewsSummaryR
  /-- Outcome of `finance_agent.run_sync(finance_input, parent_trace=...)`. -/
  finance : Except String FinanceOutcome
  /-- Outcome of `await analyst_agent.run(analyst_input, parent_trace=...)`. -/
  analyst : Except String AnalystR
  /-- Raw model text produced inside `FactCheckerAgent`''s run. -/
  factRaw : Except String String
  /-- Raw model text produced inside `TrendAgent`''s run. -/
  trendRaw : Except String String
  /-- Outcome of `await writer_agent.run(writer_input, parent_trace=...)`. -/
  writer : Except String WriterR
  /-- Outcome of `text_to_speech(text=..., voice=...)`: a path or `None`. -/
  tts : Except String (Option String)

/-- Constructor state of `CoordinatorAgent`: the default model and the
per-agent overrides (`__init__`, lines 104-129).  `verbose` and
`temperature` only configure logging and downstream model calls and never
influence a returned value, so they are omitted. -/
structure Coordinator where
  /-- Default/fallback model. -/
  model : Option String := none
  /-- Override for NewsAgent. -/
  news_model_override : Option String := none
  /-- Override for AnalystAgent. -/
  analyst_model_override : Option String := none
  /-- Override for FactCheckerAgent. -/
  factchecker_model_override : Option String := none
  /-- Override for TrendAgent. -/
  trend_model_override : Option String := none
  /-- Override for WriterAgent. -/
  writer_model_override : Option String := none
deriving Repr, DecidableEq

/-- The `self.model_overrides` dict, in construction order. -/
def Coordinator.model_overrides (c : Coordinator) : List (String × Option String) :=
  [("NewsAgent", c.news_model_override),
   ("AnalystAgent", c.analyst_model_override),
   ("FactCheckerAgent", c.factchecker_model_override),
   ("TrendAgent", c.trend_model_override),
   ("WriterAgent", c.writer_model_override)]

/-- Python `a or b` on optional strings: `a` unless it is `None` or empty. -/
def pyOrStr (a b : Option String) : Option String :=
  match a with
  | some s => if s = "" then b else some s
  | none => b

/-- Python `dict.get(key)` on an association list with distinct keys:
`none` when the key is absent, the stored value when present. -/
def pyDictGet {α : Type} (d : List (String × α)) (key : String) : Option α :=
  (d.find? (fun kv => kv.1 = key)).map (fun kv => kv.2)

/-- `_get_agent_model` (lines 131-133):
`self.model_overrides.get(agent_name) or self.model`; the stored values are
themselves optional, and `or` collapses a missing key, a stored `None` and a
stored empty string alike into the default. -/
def Coordinator.getAgentModel (c : Coordinator) (agent_name : String) : Option String :=
  pyOrStr (pyDictGet c.model_overrides agent_name).join c.model

/-! ## The coordinator run (`CoordinatorAgent.run`, lines 135-494) -/

/-- Python truthiness of an optional string (`if input_data.ticker_symbol:`,
`if news_result.markdown:`). -/
def optStrTruthy : Option String → Bool
  | none => false
  | some s => s ≠ ""

/-- `articles_data` after the structured pass and, when it is empty and
markdown text exists, the markdown extraction cascade (lines 177-275). -/
def articlesOf (nr : NewsSummaryR) : List Article :=
  if nr.articles = [] ∧ optStrTruthy nr.markdown then
    mdExtractArticles (nr.markdown.getD "")
  else nr.articles

/-- The success `AgentResult` appended for the news stage (lines 277-285):
`article_count` is the length of the extracted `articles_data`. -/
def newsSuccessResult (nr : NewsSummaryR) (articlesData : List Article) : AgentResult :=
  ⟨"NewsAgent", true, .news nr.category articlesData.length nr.summary, none⟩

/-- The finance step (lines 308-340): run only when a ticker symbol is
supplied (and truthy); the three outcomes map to an appended `AgentResult` and the
`finance_result_data` passed onward. -/
def financeStep (inp : CoordinatorInput) (behav : Behaviour) :
    List AgentResult × Option FinanceData :=
  if optStrTruthy inp.ticker_symbol then
    match behav.finance with
    | .ok (.good d) => ([⟨"FinanceAgent", true, .finance d, none⟩], some d)
    | .ok (.errorOutput msg _) => ([⟨"FinanceAgent", false, .empty, some msg⟩], none)
    | .error e =>
      ([⟨"FinanceAgent", false, .empty, some ("FinanceAgent failed: " ++ e)⟩], none)
  else ([], none)

/-- `_run_analyst_agent` (lines 496-534). -/
def analystTask (behav : Behaviour) : AgentResult :=
  match behav.analyst with
  | .ok r => ⟨"AnalystAgent", true, .analyst r.insights r.trends r.implications, none⟩
  | .error e => ⟨"AnalystAgent", false, .empty, some e⟩

/-- `_run_fact_checker_agent` (lines 536-571): the raw model text is
normalized by the embedded `_process_output`. -/
def factCheckerTask (behav : Behaviour) : AgentResult :=
  match behav.factRaw with
  | .ok raw =>
    let o := factProcessOutput raw
    ⟨"FactCheckerAgent", true, .factCheck o.verifications o.summary, none⟩
  | .error e => ⟨"FactCheckerAgent", false, .empty, some e⟩

/-- `_run_trend_agent` (lines 573-618): an empty article list short-circuits
to a failed result before the agent is invoked. -/
def trendTask (articles : List Article) (behav : Behaviour) : AgentResult :=
  if articles = [] then
    ⟨"TrendAgent", false, .empty, some "No articles provided for trend analysis"⟩
  else
    match behav.trendRaw with
    | .ok raw =>
      let o := trendProcessOutput raw
      ⟨"TrendAgent", true, .trend o.trends o.meta_trends o.summary, none⟩
    | .error e => ⟨"TrendAgent", false, .empty, some e⟩

/-- The concurrent analysis task list in scheduling order (lines 344-372):
analyst always, fact checker and trend analyzer when enabled. -/
def scheduledTasks (inp : CoordinatorInput) (articles : List Article)
    (behav : Behaviour) : List AgentResult :=
  [analystTask behav] ++
    (if inp.use_fact_checker then [factCheckerTask behav] else []) ++
    (if inp.use_trend_analyzer then [trendTask articles behav] else [])

/-- Fan-in of `asyncio.gather`: each settled task''s result is stored at its
task index, so the returned list is in task order whatever the completion
order; a task index absent from `completionOrder` never settles (physically
impossible for `asyncio.gather`, which awaits all tasks — see
`asyncioGather_complete`). -/
def gatherFrom : Nat → List AgentResult → List Nat → List AgentResult
  | _, [], _ => []
  | i, t :: ts, order =>
    if order.contains i then t :: gatherFrom (i + 1) ts order
    else gatherFrom (i + 1) ts order

/-- `await asyncio.gather(*analysis_tasks)` (line 375). -/
def asyncioGather (tasks : List AgentResult) (completionOrder : List Nat) :
    List AgentResult :=
  gatherFrom 0 tasks completionOrder

/-- A completion order that settles every one of `n` tasks. -/
def completesAll (n : Nat) (order : List Nat) : Prop :=
  ∀ i, i < n → i ∈ order

/-- The context strings and graph file list accumulated from successful
analysis results (lines 380-393). -/
structure Contexts where
  /-- `analysis_context`. -/
  analysis : String := ""
  /-- `fact_check_context`. -/
  fact_check : String := ""
  /-- `trend_context`. -/
  trend : String := ""
  /-- `graph_files`. -/
  graphs : List String := []
deriving Repr, DecidableEq

/-- The collection loop over `agent_results` (lines 380-393): successful
results update the matching context; the analyst''s insights are additionally
scanned for graph filenames. -/
def collectContexts (results : List AgentResult) : Contexts :=
  results.foldl
    (fun ctx r =>
      if r.success then
        if r.agent_name = "AnalystAgent" then
          let ins := r.data.getStrD "insights"
          { ctx with analysis := ins, graphs := ctx.graphs ++ rfindall graphPat ins }
        else if r.agent_name = "FactCheckerAgent" then
          { ctx with fact_check := r.data.getStrD "summary" }
        else if r.agent_name = "TrendAgent" then
          { ctx with trend := r.data.getStrD "summary" }
        else ctx
      else ctx)
    {}

/-- `combined_context` (line 397). -/
def combinedContext (newsSummary : String) (ctx : Contexts) : String :=
  "Original News Summary:\n" ++ newsSummary ++ "\n\nAnalysis:\n" ++ ctx.analysis ++
    "\n\nFact Check Summary:\n" ++ ctx.fact_check ++ "\n\nTrend Summary:\n" ++ ctx.trend

/-- Audio generation inside the writer block (lines 424-439): only when
requested and the final summary is truthy; a `text_to_speech` exception is
caught and leaves the path `None`. -/
def audioPath (inp : CoordinatorInput) (behav : Behaviour) (w : WriterR) :
    Option String :=
  if inp.generate_audio ∧ w.final_summary ≠ "" then
    match behav.tts with
    | .ok p => p
    | .error _ => none
  else none

/-- The `agent_results` list accumulated before the writer stage: news
result, optional finance result, then the gathered analysis results. -/
def preWriterResults (inp : CoordinatorInput) (behav : Behaviour)
    (nr : NewsSummaryR) (completionOrder : List Nat) : List AgentResult :=
  let articlesData := articlesOf nr
  [newsSuccessResult nr articlesData] ++ (financeStep inp behav).1 ++
    asyncioGather (scheduledTasks inp articlesData behav) completionOrder

/-- The branch condition of line 343, `agent_results[-1].success and
articles_data`: note `agent_results[-1]` is the finance result whenever a
ticker was supplied, not the news result. -/
def lastPreAnalysisSucceeded (inp : CoordinatorInput) (behav : Behaviour)
    (nr : NewsSummaryR) : Bool :=
  let res2 := [newsSuccessResult nr (articlesOf nr)] ++ (financeStep inp behav).1
  (res2.getLastD ⟨"", false, .empty, none⟩).success

/-- `CoordinatorAgent.run` (lines 135-494).  `completionOrder` is the
real-time completion order of the concurrently gathered analysis tasks; all
other nondeterminism lives in `behav`.  Total: every stage exception is
caught and converted, so a `CoordinatorOutput` is always returned. -/
def coordinatorRun (c : Coordinator) (inp : CoordinatorInput) (behav : Behaviour)
    (completionOrder : List Nat) : CoordinatorOutput :=
  match behav.news with
  | .error e =>
    { agent_results := [⟨"NewsAgent", false, .empty, some e⟩] }
  | .ok nr =>
    let articlesData := articlesOf nr
    if lastPreAnalysisSucceeded inp behav nr ∧ articlesData ≠ [] then
      let res3 := preWriterResults inp behav nr completionOrder
      let ctx := collectContexts res3
      let finData := (financeStep inp behav).2
      match behav.writer with
      | .ok w =>
        let apath := audioPath inp behav w
        { news_summary := some w.final_summary
          audio_file := apath
          markdown := w.markdown_output
          analysis := some ctx.analysis
          fact_check := some ctx.fact_check
          trends := some ctx.trend
          financial_data := finData
          graph_files := if ctx.graphs = [] then none else some ctx.graphs
          agent_results :=
            res3 ++ [⟨"WriterAgent", true, .writer w.final_summary w.markdown_output apath, none⟩] }
      | .error e =>
        { analysis := some ctx.analysis
          fact_check := some ctx.fact_check
          trends := some ctx.trend
          financial_data := finData
          graph_files := if ctx.graphs = [] then none else some ctx.graphs
          agent_results := res3 ++ [⟨"WriterAgent", false, .empty, some e⟩] }
    else
      { agent_results := [newsSuccessResult nr articlesData] ++ (financeStep inp behav).1 }


/-! ## Concrete run fixtures used by the witnesses and counterexamples -/

/-- A well-formed article, as a fetch stage would produce. -/
def sampleArticle : Article :=
  ⟨"Chip sales rise", "Semiconductor demand grows.", "Tech Daily",
    "http://example.com/chips", "2024-05-01"⟩

/-- A successful news-stage outcome with one structured article. -/
def okNews : NewsSummaryR :=
  { category := "technology", article_count := 1, articles := [sampleArticle],
    summary := "News summary.", markdown := some "# Tech News" }

/-- A behaviour in which every stage call returns normally. -/
def okBehav : Behaviour :=
  { news := .ok okNews
    finance := .ok (.good [("symbol", "AAPL"), ("price", "123.45")])
    analyst := .ok { insights := "A" }
    factRaw := .ok "F"
    trendRaw := .ok "T"
    writer := .ok { final_summary := "Final.", markdown_output := some "# Report" }
    tts := .ok (some "output/audio.mp3") }

/-- A request carrying a ticker symbol. -/
def tickerInput : CoordinatorInput := { ticker_symbol := some "AAPL" }

/-- A news-stage outcome that succeeded but produced zero articles and no
markdown to fall back on. -/
def emptyNews : NewsSummaryR :=
  { category := "technology", articles := [], summary := "Nothing found.",
    markdown := none }

/-- A coordinator with a default model, an analyst override, and an empty
trend override. -/
def c7coord : Coordinator :=
  { model := some "gpt-4o-mini", analyst_model_override := some "gpt-4",
    trend_model_override := some "" }

/-- Strict-envelope fact-checker JSON whose claim text would also match the
tier-2 claim pattern. -/
def c9factRaw : String :=
  "\x7b\"verifications\": [\x7b\"claim\": \"Claim: fake\"\x7d], \"summary\": \"S\"\x7d"

/-- Strict-envelope trend JSON whose trend name would also match the tier-2
trend pattern. -/
def c9trendRaw : String :=
  "\x7b\"trends\": [\x7b\"name\": \"Trend: X\"\x7d], \"summary\": \"TS\"\x7d"

/-! ## Helper lemmas -/

/-- `gatherFrom` returns the tasks unchanged when every index from `i`
onwards appears in the completion order. -/
theorem gatherFrom_of_completes (order : List Nat) :
    ∀ (ts : List AgentResult) (i : Nat),
      (∀ j, i ≤ j → j < i + ts.length → j ∈ order) →
      gatherFrom i ts order = ts
  | [], _, _ => rfl
  | t :: ts, i, h => by
    have hi : i ∈ order := h i le_rfl (by simp only [List.length_cons]; omega)
    have hrec := gatherFrom_of_completes order ts (i + 1)
      (fun j h1 h2 => h j (by omega) (by simp only [List.length_cons]; omega))
    simp [gatherFrom, hi, hrec]

/-- `asyncio.gather` preserves task (scheduling) order: when every task
settles, the result list is exactly the task list. -/
theorem asyncioGather_complete (tasks : List AgentResult) (order : List Nat)
    (h : completesAll tasks.length order) : asyncioGather tasks order = tasks :=
  gatherFrom_of_completes order tasks 0 (fun j _ hj => h j (by omega))

/-- The analyst task is always named `AnalystAgent`. -/
theorem analystTask_name (b : Behaviour) : (analystTask b).agent_name = "AnalystAgent" := by
  cases h : b.analyst <;> simp [analystTask, h]

/-- The fact-checker task is always named `FactCheckerAgent`. -/
theorem factCheckerTask_name (b : Behaviour) :
    (factCheckerTask b).agent_name = "FactCheckerAgent" := by
  cases h : b.factRaw <;> simp [factCheckerTask, h]

/-- The trend task is always named `TrendAgent`. -/
theorem trendTask_name (articles : List Article) (b : Behaviour) :
    (trendTask articles b).agent_name = "TrendAgent" := by
  by_cases h : articles = [] <;> cases h2 : b.trendRaw <;> simp [trendTask, h, h2]

/-- The scheduled task names, in scheduling order. -/
theorem scheduledTasks_names (inp : CoordinatorInput) (articles : List Article)
    (b : Behaviour) :
    (scheduledTasks inp articles b).map AgentResult.agent_name =
      ["AnalystAgent"] ++ (if inp.use_fact_checker then ["FactCheckerAgent"] else []) ++
        (if inp.use_trend_analyzer then ["TrendAgent"] else []) := by
  cases hf : inp.use_fact_checker <;> cases ht : inp.use_trend_analyzer <;>
    simp [scheduledTasks, hf, ht, analystTask_name, factCheckerTask_name, trendTask_name]

/-- Without a ticker symbol the finance step is skipped. -/
theorem financeStep_no_ticker (inp : CoordinatorInput) (b : Behaviour)
    (h : inp.ticker_symbol = none) : financeStep inp b = ([], none) := by
  simp [financeStep, h, optStrTruthy]

/-- Without a ticker symbol, the last pre-analysis result is the (successful)
news result, so the branch guard of line 343 passes. -/
theorem lastPre_no_ticker (inp : CoordinatorInput) (b : Behaviour) (nr : NewsSummaryR)
    (h : inp.ticker_symbol = none) : lastPreAnalysisSucceeded inp b nr = true := by
  simp [lastPreAnalysisSucceeded, financeStep_no_ticker inp b h, newsSuccessResult]

/-- The finance step contributes exactly one result, named `FinanceAgent`,
when a (truthy) ticker symbol was supplied, and none otherwise — whatever
the quote call''s outcome. -/
theorem financeStep_names (inp : CoordinatorInput) (b : Behaviour) :
    ((financeStep inp b).1).map AgentResult.agent_name =
      if optStrTruthy inp.ticker_symbol then ["FinanceAgent"] else [] := by
  by_cases h : optStrTruthy inp.ticker_symbol
  · cases hf : b.finance with
    | ok o => cases o <;> simp [financeStep, h, hf]
    | error e => simp [financeStep, h, hf]
  · simp [financeStep, h]

/-! ## Claim theorems -/

/-- C1: for every structurally valid request, whatever the stage outcomes and
completion order, `CoordinatorAgent.run` returns a `CoordinatorOutput` (the
model is a total function: every stage exception is caught) and the returned
output''s `agent_results` list is populated (non-empty) in every case. -/
theorem c1_run_total_and_results_populated (c : Coordinator) (inp : CoordinatorInput)
    (behav : Behaviour) (order : List Nat) :
    1 ≤ (coordinatorRun c inp behav order).agent_results.length := by
  unfold coordinatorRun
  cases hn : behav.news with
  | error e => simp
  | ok nr =>
    dsimp only
    split
    · cases hw : behav.writer <;> simp [preWriterResults]
    · simp

/-- C7: `_get_agent_model` returns the per-stage override when it is present
and non-empty, and the pipeline default otherwise (absent key, stored `None`,
or stored empty string). -/
theorem c7_model_resolution (c : Coordinator) (name : String) :
    (∀ v, pyDictGet c.model_overrides name = some (some v) → v ≠ "" →
      c.getAgentModel name = some v) ∧
    (pyDictGet c.model_overrides name = some (some "") →
      c.getAgentModel name = c.model) ∧
    (pyDictGet c.model_overrides name = some none →
      c.getAgentModel name = c.model) ∧
    (pyDictGet c.model_overrides name = none →
      c.getAgentModel name = c.model) := by
  refine ⟨fun v hv hne => ?_, fun h => ?_, fun h => ?_, fun h => ?_⟩ <;>
    simp [Coordinator.getAgentModel, pyOrStr, *]

/-- C7 witness: the override wins for `AnalystAgent`; the empty override for
`TrendAgent`, the stored `None` for `NewsAgent`, and the absent key
`UnknownAgent` all fall back to the default model. -/
theorem c7_model_resolution_witness :
    c7coord.getAgentModel "AnalystAgent" = some "gpt-4" ∧
    c7coord.getAgentModel "TrendAgent" = some "gpt-4o-mini" ∧
    c7coord.getAgentModel "NewsAgent" = some "gpt-4o-mini" ∧
    c7coord.getAgentModel "UnknownAgent" = some "gpt-4o-mini" :=
  ⟨(c7_model_resolution c7coord "AnalystAgent").1 "gpt-4" (by decide) (by decide),
   (c7_model_resolution c7coord "TrendAgent").2.1 (by decide),
   (c7_model_resolution c7coord "NewsAgent").2.2.1 (by decide),
   (c7_model_resolution c7coord "UnknownAgent").2.2.2 (by decide)⟩

/-- C2 (counterexample): on the raw output `" x "` (no JSON, no pattern
match) both normalizers return the raw output as the summary WITHOUT
trimming, so the summary does not equal the trimmed raw output as the claim
states. -/
theorem c2_summary_not_trimmed_counterexample :
    factProcessOutput " x " = ⟨[], " x "⟩ ∧
    trendProcessOutput " x " = ⟨[], [], " x "⟩ ∧
    pyStrip " x " = "x" ∧ (" x " : String) ≠ "x" := by
  refine ⟨by decide, by decide, by decide, by decide⟩

/-- C2 (amended): both `_process_output` normalizers are total functions of
the raw output; when the strict tier fails and pattern extraction yields no
structured entry (and no labelled summary section), the record has empty
collection fields and its summary is the raw output verbatim, not
trimmed. -/
theorem c2_normalization_total_with_raw_fallback (s t : String) :
    (factJsonTier s = none → rfinditer factClaimPat s = [] →
      rsearch summaryPat s = none → factProcessOutput s = ⟨[], s⟩) ∧
    (trendJsonTier t = none → rfinditer trendPat t = [] →
      rsearch trendMetaPat t = none → rsearch summaryPat t = none →
      trendProcessOutput t = ⟨[], [], t⟩) := by
  constructor
  · intro h1 h2 h3
    simp [factProcessOutput, factProcessOutputWith, factPatternTier, h1, h2, h3]
  · intro h1 h2 h3 h4
    simp [trendProcessOutput, trendProcessOutputWith, trendPatternTier, h1, h2, h3, h4]

/-- C2 witness: the empty raw output is normalized to the empty record with
an empty (raw) summary by both normalizers. -/
theorem c2_normalization_witness :
    factProcessOutput "" = ⟨[], ""⟩ ∧ trendProcessOutput "" = ⟨[], [], ""⟩ :=
  ⟨(c2_normalization_total_with_raw_fallback "" "").1 (by decide) (by decide) (by decide),
   (c2_normalization_total_with_raw_fallback "" "").2 (by decide) (by decide) (by decide)
     (by decide)⟩

/-- C9: whenever the strict JSON tier succeeds, the normalized record is
built from the parsed fields alone — the result does not depend on the
pattern-extraction tier at all (it holds for an arbitrary second tier). -/
theorem c9_strict_tier_precedence (s : String) :
    (∀ fo, factJsonTier s = some fo → ∀ f, factProcessOutputWith f s = fo) ∧
    (∀ t, trendJsonTier s = some t → ∀ g, trendProcessOutputWith g s = t) := by
  constructor
  · intro fo h f
    simp [factProcessOutputWith, h]
  · intro t h g
    simp [trendProcessOutputWith, h]

/-- C9 witness: strict-envelope JSON whose payload text also matches the
tier-2 patterns is normalized from the parsed fields (tier 1), and the
pattern tier would have produced a different record. -/
theorem c9_strict_tier_precedence_witness :
    factProcessOutput c9factRaw =
      ⟨[⟨"Claim: fake", "Unverified", "", "Low", []⟩], "S"⟩ ∧
    trendProcessOutput c9trendRaw =
      ⟨[⟨"Trend: X", "", "Emerging", [], "Short-term"⟩], [], "TS"⟩ ∧
    rfinditer factClaimPat c9factRaw ≠ [] ∧
    rfinditer trendPat c9trendRaw ≠ [] ∧
    factPatternTier c9factRaw ≠ factProcessOutput c9factRaw ∧
    trendPatternTier c9trendRaw ≠ trendProcessOutput c9trendRaw :=
  ⟨(c9_strict_tier_precedence c9factRaw).1 _ (by decide) factPatternTier,
   (c9_strict_tier_precedence c9trendRaw).2 _ (by decide) trendPatternTier,
   by decide, by decide, by decide, by decide⟩

/-- C10: a tier-2 entry whose secondary fields are not found in the windows
following its match is populated with the fixed defaults: assessment
`Unverified`, confidence `Low`, empty explanation and sources for a
fact-check verification; strength `Emerging`, timeframe `Short-term`, empty
description and supporting articles for a trend. -/
theorem c10_pattern_tier_defaults (s t : String) :
    (∀ m ∈ rfinditer factClaimPat s,
      rsearch factAssessPat (pySlice s m.mend (m.mend + 500)) = none →
      rsearch factExplPat (pySlice s m.mend (m.mend + 1000)) = none →
      rsearch factConfPat (pySlice s m.mend (m.mend + 500)) = none →
      rsearch factSourcesPat (pySlice s m.mend (m.mend + 500)) = none →
      factBuildVerification s m = ⟨pyStrip (m.grpD 1), "Unverified", "", "Low", []⟩) ∧
    (∀ m ∈ rfinditer trendPat t,
      rsearch trendDescPat (pySlice t m.mend (m.mend + 1000)) = none →
      rsearch trendStrengthPat (pySlice t m.mend (m.mend + 500)) = none →
      rsearch trendArticlesPat (pySlice t m.mend (m.mend + 1000)) = none →
      rsearch trendTimeframePat (pySlice t m.mend (m.mend + 500)) = none →
      trendBuildTrend t m = ⟨pyStrip (m.grpD 1), "", "Emerging", [], "Short-term"⟩) := by
  constructor
  · intro m _ h1 h2 h3 h4
    simp [factBuildVerification, h1, h2, h3, h4]
  · intro m _ h1 h2 h3 h4
    simp [trendBuildTrend, h1, h2, h3, h4]

/-- C10 witness: a bare claim line and a bare trend line produce entries
carrying exactly the documented defaults. -/
theorem c10_pattern_tier_defaults_witness :
    factBuildVerification "Claim: The moon is cheese" ⟨0, 25, [(1, "The moon is cheese")]⟩ =
      ⟨"The moon is cheese", "Unverified", "", "Low", []⟩ ∧
    trendBuildTrend "Trend: Robots" ⟨0, 13, [(1, "Robots")]⟩ =
      ⟨"Robots", "", "Emerging", [], "Short-term"⟩ :=
  ⟨(c10_pattern_tier_defaults "Claim: The moon is cheese" "Trend: Robots").1
      ⟨0, 25, [(1, "The moon is cheese")]⟩ (by decide) (by decide) (by decide) (by decide)
      (by decide),
   (c10_pattern_tier_defaults "Claim: The moon is cheese" "Trend: Robots").2
      ⟨0, 13, [(1, "Robots")]⟩ (by decide) (by decide) (by decide) (by decide) (by decide)⟩

/-- C4 (counterexample): when the fetch stage succeeds with zero normalized
articles but a ticker symbol was supplied, the quote stage HAS already
executed — its result is in the output list — contradicting the claim that
no quote stage runs on the empty-fetch abort path. -/
theorem c4_quote_stage_runs_on_empty_fetch_counterexample :
    (coordinatorRun {} tickerInput { okBehav with news := .ok emptyNews }
          []).agent_results.map AgentResult.agent_name =
      ["NewsAgent", "FinanceAgent"] ∧
    "FinanceAgent" ∈
      (coordinatorRun {} tickerInput { okBehav with news := .ok emptyNews }
          []).agent_results.map AgentResult.agent_name := by
  refine ⟨by decide, by decide⟩

/-- C4 (amended): if the fetch stage succeeds but yields zero normalized
articles after both extraction tiers, the coordinator returns an aborted
`CoordinatorOutput` whose only stage results are the fetch result and —
when a ticker was supplied — the quote result that already ran; no
analysis, fact-check, trend, write or audio stage executes, every content
field is `None`, and the explanatory message passed as `error=` is
discarded because `CoordinatorOutput` declares no such field. -/
theorem c4_empty_fetch_aborts_amended (c : Coordinator) (inp : CoordinatorInput)
    (behav : Behaviour) (order : List Nat) (nr : NewsSummaryR)
    (hn : behav.news = .ok nr) (ha : articlesOf nr = []) :
    coordinatorRun c inp behav order =
      { agent_results := newsSuccessResult nr [] :: (financeStep inp behav).1 } := by
  unfold coordinatorRun
  rw [hn]
  simp [ha]

/-- C4 witness: a zero-article fetch with a ticker aborts with exactly the
fetch and quote results. -/
theorem c4_empty_fetch_aborts_witness :
    coordinatorRun {} tickerInput { okBehav with news := .ok emptyNews } [] =
      { agent_results := newsSuccessResult emptyNews [] ::
          (financeStep tickerInput { okBehav with news := .ok emptyNews }).1 } :=
  c4_empty_fetch_aborts_amended {} tickerInput _ [] emptyNews rfl (by decide)

/-- C5 (counterexample): after a writer failure the returned output carries
no explanatory message anywhere — the `error=` keyword passed to
`CoordinatorOutput` is discarded (the class declares no such field), so the
output equals a record in which the message appears in no field,
contradicting the claim that an explanatory message is attached. -/
theorem c5_writer_failure_message_discarded_counterexample :
    coordinatorRun {} {} { okBehav with writer := .error "boom" } [0, 1, 2] =
      { news_summary := none, audio_file := none, markdown := none,
        analysis := some "A", fact_check := some "F", trends := some "T",
        financial_data := none, graph_files := none,
        agent_results :=
          [⟨"NewsAgent", true, .news "technology" 1 "News summary.", none⟩,
           ⟨"AnalystAgent", true, .analyst "A" [] [], none⟩,
           ⟨"FactCheckerAgent", true, .factCheck [] "F", none⟩,
           ⟨"TrendAgent", true, .trend [] [] "T", none⟩,
           ⟨"WriterAgent", false, .empty, some "boom"⟩] } ∧
    ∀ r ∈ (coordinatorRun {} {} { okBehav with writer := .error "boom" }
        [0, 1, 2]).agent_results,
      r.error ≠ some "WriterAgent failed to generate final summary" := by
  refine ⟨by decide, by decide⟩

/-- C5 (amended): if the write stage fails after a successful fetch, the
coordinator still returns (never raises) a `CoordinatorOutput` populated
from the successful analysis stages, with `news_summary`, `audio_file` and
`markdown` left empty and the writer failure recorded as the last stage
result; the explanatory message is passed to the constructor but discarded
since the output class declares no error field. -/
theorem c5_writer_failure_degrades_amended (c : Coordinator) (inp : CoordinatorInput)
    (behav : Behaviour) (order : List Nat) (nr : NewsSummaryR) (e : String)
    (hn : behav.news = .ok nr)
    (hlast : lastPreAnalysisSucceeded inp behav nr = true)
    (ha : articlesOf nr ≠ [])
    (hw : behav.writer = .error e) :
    coordinatorRun c inp behav order =
      { analysis := some (collectContexts (preWriterResults inp behav nr order)).analysis
        fact_check := some (collectContexts (preWriterResults inp behav nr order)).fact_check
        trends := some (collectContexts (preWriterResults inp behav nr order)).trend
        financial_data := (financeStep inp behav).2
        graph_files :=
          if (collectContexts (preWriterResults inp behav nr order)).graphs = [] then none
          else some (collectContexts (preWriterResults inp behav nr order)).graphs
        agent_results := preWriterResults inp behav nr order ++
          [⟨"WriterAgent", false, .empty, some e⟩] } := by
  unfold coordinatorRun
  rw [hn]
  simp only [hlast, ha, hw]
  simp [ha]

/-- C5 witness: a concrete writer failure after a successful one-article
fetch. -/
theorem c5_writer_failure_degrades_witness :
    coordinatorRun {} {} { okBehav with writer := .error "boom" } [0, 1, 2] =
      { analysis := some (collectContexts (preWriterResults {}
          { okBehav with writer := .error "boom" } okNews [0, 1, 2])).analysis
        fact_check := some (collectContexts (preWriterResults {}
          { okBehav with writer := .error "boom" } okNews [0, 1, 2])).fact_check
        trends := some (collectContexts (preWriterResults {}
          { okBehav with writer := .error "boom" } okNews [0, 1, 2])).trend
        financial_data := (financeStep {} { okBehav with writer := .error "boom" }).2
        graph_files :=
          if (collectContexts (preWriterResults {} { okBehav with writer := .error "boom" }
              okNews [0, 1, 2])).graphs = [] then none
          else some (collectContexts (preWriterResults {}
            { okBehav with writer := .error "boom" } okNews [0, 1, 2])).graphs
        agent_results := preWriterResults {} { okBehav with writer := .error "boom" }
            okNews [0, 1, 2] ++ [⟨"WriterAgent", false, .empty, some "boom"⟩] } :=
  c5_writer_failure_degrades_amended {} {} _ [0, 1, 2] okNews "boom" rfl (by decide)
    (by decide) rfl

/-- C8 (counterexample): with audio requested and the write stage succeeded,
a text-to-speech failure leaves NO audio stage result in the output list
(all recorded stages are the usual five, all successful), contradicting the
claim that the audio failure is recorded as a `StageResult`; the output is
otherwise complete. -/
theorem c8_no_audio_stage_result_counterexample :
    (coordinatorRun {} {} { okBehav with tts := .error "ttsfail" }
          [0, 1, 2]).agent_results.map AgentResult.agent_name =
      ["NewsAgent", "AnalystAgent", "FactCheckerAgent", "TrendAgent", "WriterAgent"] ∧
    (∀ r ∈ (coordinatorRun {} {} { okBehav with tts := .error "ttsfail" }
        [0, 1, 2]).agent_results, r.success = true) ∧
    (coordinatorRun {} {} { okBehav with tts := .error "ttsfail" } [0, 1, 2]).audio_file =
      none ∧
    (coordinatorRun {} {} { okBehav with tts := .error "ttsfail" } [0, 1, 2]).news_summary =
      some "Final." := by
  refine ⟨by decide, by decide, by decide, by decide⟩

/-- C8 (amended): when audio was requested and the write stage succeeded
with a non-empty summary, a text-to-speech failure is caught and logged
only: no audio stage result is appended, `audio_file` is `None`, and the
otherwise-complete output (summary, markdown, analysis blocks, stage
results) is returned intact. -/
theorem c8_audio_failure_best_effort_amended (c : Coordinator) (inp : CoordinatorInput)
    (behav : Behaviour) (order : List Nat) (nr : NewsSummaryR) (w : WriterR) (m : String)
    (hn : behav.news = .ok nr)
    (hlast : lastPreAnalysisSucceeded inp behav nr = true)
    (ha : articlesOf nr ≠ [])
    (hw : behav.writer = .ok w)
    (hga : inp.generate_audio = true)
    (hfs : w.final_summary ≠ "")
    (ht : behav.tts = .error m) :
    coordinatorRun c inp behav order =
      { news_summary := some w.final_summary
        audio_file := none
        markdown := w.markdown_output
        analysis := some (collectContexts (preWriterResults inp behav nr order)).analysis
        fact_check := some (collectContexts (preWriterResults inp behav nr order)).fact_check
        trends := some (collectContexts (preWriterResults inp behav nr order)).trend
        financial_data := (financeStep inp behav).2
        graph_files :=
          if (collectContexts (preWriterResults inp behav nr order)).graphs = [] then none
          else some (collectContexts (preWriterResults inp behav nr order)).graphs
        agent_results := preWriterResults inp behav nr order ++
          [⟨"WriterAgent", true, .writer w.final_summary w.markdown_output none, none⟩] } := by
  unfold coordinatorRun
  rw [hn]
  simp only [hlast, ha, hw]
  simp [audioPath, hga, hfs, ht, ha]

/-- C8 witness: a concrete text-to-speech failure after a successful write
stage. -/
theorem c8_audio_failure_best_effort_witness :
    coordinatorRun {} {} { okBehav with tts := .error "ttsfail" } [0, 1, 2] =
      { news_summary := some "Final."
        audio_file := none
        markdown := some "# Report"
        analysis := some (collectContexts (preWriterResults {}
          { okBehav with tts := .error "ttsfail" } okNews [0, 1, 2])).analysis
        fact_check := some (collectContexts (preWriterResults {}
          { okBehav with tts := .error "ttsfail" } okNews [0, 1, 2])).fact_check
        trends := some (collectContexts (preWriterResults {}
          { okBehav with tts := .error "ttsfail" } okNews [0, 1, 2])).trend
        financial_data := (financeStep {} { okBehav with tts := .error "ttsfail" }).2
        graph_files :=
          if (collectContexts (preWriterResults {} { okBehav with tts := .error "ttsfail" }
              okNews [0, 1, 2])).graphs = [] then none
          else some (collectContexts (preWriterResults {}
            { okBehav with tts := .error "ttsfail" } okNews [0, 1, 2])).graphs
        agent_results := preWriterResults {} { okBehav with tts := .error "ttsfail" }
            okNews [0, 1, 2] ++
          [⟨"WriterAgent", true, .writer "Final." (some "# Report") none, none⟩] } :=
  c8_audio_failure_best_effort_amended {} {} _ [0, 1, 2] okNews
    { final_summary := "Final.", markdown_output := some "# Report" } "ttsfail" rfl
    (by decide) (by decide) rfl rfl (by decide) rfl

/-- C6: for any fixed request whose run reaches the concurrent fan-out
(fetch succeeded with at least one normalized article, and the line-343
guard passed — which with a ticker means the quote stage did not fail), any
two completion orders of the concurrent analysis stages that settle every
scheduled task yield IDENTICAL outputs, and the stage results are ordered:
fetch first, then the quote result when a ticker was supplied, then the
analysis stages in scheduling order (analyst, then fact checker if enabled,
then trend if enabled), the write stage last. -/
theorem c6_schedule_order_determinism (c : Coordinator) (inp : CoordinatorInput)
    (behav : Behaviour) (p q : List Nat) (nr : NewsSummaryR)
    (hn : behav.news = .ok nr)
    (ha : articlesOf nr ≠ [])
    (hlast : lastPreAnalysisSucceeded inp behav nr = true)
    (hp : completesAll (scheduledTasks inp (articlesOf nr) behav).length p)
    (hq : completesAll (scheduledTasks inp (articlesOf nr) behav).length q) :
    coordinatorRun c inp behav p = coordinatorRun c inp behav q ∧
    (coordinatorRun c inp behav p).agent_results.map AgentResult.agent_name =
      ["NewsAgent"] ++ (if optStrTruthy inp.ticker_symbol then ["FinanceAgent"] else []) ++
        ["AnalystAgent"] ++ (if inp.use_fact_checker then ["FactCheckerAgent"] else []) ++
        (if inp.use_trend_analyzer then ["TrendAgent"] else []) ++ ["WriterAgent"] := by
  have hgp := asyncioGather_complete _ p hp
  have hgq := asyncioGather_complete _ q hq
  have hR : preWriterResults inp behav nr p = preWriterResults inp behav nr q := by
    simp [preWriterResults, hgp, hgq]
  constructor
  · unfold coordinatorRun
    rw [hn]
    simp only [hlast, ha]
    cases hw : behav.writer <;> simp [hw, hR]
  · unfold coordinatorRun
    rw [hn]
    simp only [hlast, ha]
    cases hw : behav.writer <;>
      simp [hw, ha, preWriterResults, hgp, financeStep_names, newsSuccessResult,
        scheduledTasks_names]

/-- C6 witness: a ticker request with all stages (quote included)
succeeding, under two different completion orders: the quote result sits
between the fetch result and the scheduled analysis results. -/
theorem c6_schedule_order_determinism_witness :
    coordinatorRun {} tickerInput okBehav [2, 0, 1] =
      coordinatorRun {} tickerInput okBehav [0, 1, 2] ∧
    (coordinatorRun {} tickerInput okBehav [2, 0, 1]).agent_results.map
        AgentResult.agent_name =
      ["NewsAgent"] ++
        (if optStrTruthy tickerInput.ticker_symbol then ["FinanceAgent"] else []) ++
        ["AnalystAgent"] ++
        (if tickerInput.use_fact_checker then ["FactCheckerAgent"] else []) ++
        (if tickerInput.use_trend_analyzer then ["TrendAgent"] else []) ++
        ["WriterAgent"] :=
  c6_schedule_order_determinism {} tickerInput okBehav [2, 0, 1] [0, 1, 2] okNews rfl
    (by decide) (by decide) (by unfold completesAll; decide)
    (by unfold completesAll; decide)

/-- C3: with a ticker supplied, a fetch success with one article and a
quote-stage failure, the coordinator skips the analysis fan-out and the
write stage entirely (the `agent_results[-1].success` guard of line 343
inspects the finance result instead of the news result) and returns the
zero-article abort output; with the identical behaviour except a quote
success, the full pipeline runs.  This contradicts the claim (and the
source''s own comment on line 342) that a quote failure only degrades the
run. -/
theorem c3_quote_failure_aborts_pipeline_bug :
    (coordinatorRun {} tickerInput { okBehav with finance := .error "API down" }
          [0, 1, 2]).agent_results.map AgentResult.agent_name =
      ["NewsAgent", "FinanceAgent"] ∧
    (coordinatorRun {} tickerInput { okBehav with finance := .error "API down" }
          [0, 1, 2]).news_summary = none ∧
    (coordinatorRun {} tickerInput { okBehav with finance := .error "API down" }
          [0, 1, 2]).agent_results.getLastD ⟨"", false, .empty, none⟩ =
      ⟨"FinanceAgent", false, .empty, some "FinanceAgent failed: API down"⟩ ∧
    (coordinatorRun {} tickerInput okBehav [0, 1, 2]).agent_results.map
        AgentResult.agent_name =
      ["NewsAgent", "FinanceAgent", "AnalystAgent", "FactCheckerAgent", "TrendAgent",
        "WriterAgent"] := by
  refine ⟨by decide, by decide, by decide, by decide⟩
